import Mathlib

/-!
Shallow embedding of the BeyondChats Reddit persona builder
(src/main.py and src/main_openai.py) and proofs about it.

The analytical core is `build_persona_simple` (src/main_openai.py, lines
130-166): tokenization, stopword filtering, frequency ranking via
`collections.Counter.most_common`, sentiment, sentence statistics and a
fixed-format rendering.  External library behaviour (TextBlob
tokenization/sentences/sentiment, PRAW listing limits) is modelled from
the spec where noted; everything else is translated line by line from
the Python source.
-/

namespace BeyondChats

/-- A fetched content item: the Python 4-tuple
`(created_utc, kind, text, permalink)` built in `fetch_user_content`. -/
structure Item where
  created : Int
  kind : String
  text : String
  permalink : String
  deriving DecidableEq, Repr

/-! ## Tokenization (TextBlob `blob.words`, modelled from the spec) -/

/-- Emit the (reversed) current token as a singleton list, or nothing when
it is empty. -/
def flushTok (cur : List Char) : List String :=
  if cur.isEmpty then [] else [String.mk cur.reverse]

/-- Modelled from the spec: TextBlob word tokenization (external
dependency `blob.words`); splits the text into maximal runs of
alphanumeric characters. -/
def tokenizeAux : List Char → List Char → List String
  | [], cur => flushTok cur
  | c :: rest, cur =>
    if c.isAlphanum then tokenizeAux rest (c :: cur)
    else flushTok cur ++ tokenizeAux rest []

/-- Modelled from the spec: `blob.words` over a corpus string. -/
def blobWords (s : String) : List String :=
  tokenizeAux s.toList []

/-- Python `str.isalpha()`: nonempty and every character alphabetic. -/
def pyIsAlpha (s : String) : Bool :=
  !s.isEmpty && s.toList.all Char.isAlpha

/-- Python `str.lower()`: lower-case each character. -/
def pyLower (s : String) : String := String.mk (s.toList.map Char.toLower)

/-- The fixed stopword set of `build_persona_simple`
(src/main_openai.py, lines 135-138). -/
def stopwords : List String :=
  ["the","and","is","in","to","of","a","for","on","it","with","this",
   "that","i","you","as","was","are","but","they","be","or","not"]

/-- `[w.lower() for w in blob.words if w.isalpha() and w.lower() not in stopwords]`
(src/main_openai.py, line 139). -/
def wordsOf (corpus : String) : List String :=
  ((blobWords corpus).filter
      (fun w => pyIsAlpha w && !stopwords.contains (pyLower w))).map pyLower

/-- Python `sep.join(l)`. -/
def pyJoin (sep : String) : List String → String
  | [] => ""
  | x :: xs => xs.foldl (fun acc t => acc ++ sep ++ t) x

/-- `" ".join([text for _, _, text, _ in posts + comments])`
(src/main_openai.py, line 131). -/
def combinedOf (posts comments : List Item) : String :=
  pyJoin " " ((posts ++ comments).map Item.text)

/-! ## Counter and `most_common` -/

/-- The keys of `collections.Counter(ws)` in insertion order, i.e. the
distinct words of `ws` in order of first occurrence. -/
def firstOccs : List String → List String
  | [] => []
  | w :: ws => w :: (firstOccs ws).filter (fun x => x ≠ w)

/-- Models `collections.Counter(ws).items()`: each distinct word paired
with its multiplicity, in first-insertion (= first-occurrence) order. -/
def counterOf (ws : List String) : List (String × Nat) :=
  (firstOccs ws).map (fun w => (w, ws.count w))

/-- Insert an entry into a descending-by-count list, before the first
entry of strictly smaller count (so an entry inserted later goes after
equal counts already present later in `sortDesc`'s recursion: the head of
the original list is inserted last and lands before its ties). -/
def insertDesc (x : String × Nat) : List (String × Nat) → List (String × Nat)
  | [] => [x]
  | y :: ys => if x.2 < y.2 then y :: insertDesc x ys else x :: y :: ys

/-- Stable sort, descending by count.  `Counter.most_common` is
documented as `sorted(items, key=count, reverse=True)` (stable); a stable
sort is unique, so this insertion sort is a faithful model. -/
def sortDesc : List (String × Nat) → List (String × Nat)
  | [] => []
  | x :: xs => insertDesc x (sortDesc xs)

/-- `Counter.most_common(n)`: the `n` highest-count entries, descending,
ties in insertion order. -/
def mostCommonN (n : Nat) (freq : List (String × Nat)) : List (String × Nat) :=
  (sortDesc freq).take n

/-- `top = freq.most_common(5)` (src/main_openai.py, line 141). -/
def topOf (posts comments : List Item) : List (String × Nat) :=
  mostCommonN 5 (counterOf (wordsOf (combinedOf posts comments)))

/-! ## Sentiment (TextBlob `blob.sentiment`, modelled from the spec) -/

/-- Modelled from the spec: the lexicon of the rule-based sentiment model
(external dependency TextBlob).  Each recognized sentiment-bearing word
carries a (polarity, subjectivity) pair with polarity in [-1, 1] and
subjectivity in [0, 1]. -/
def lexiconEntry (w : String) : Option (Rat × Rat) :=
  if w = "love" then some (1/2, 3/5)
  else if w = "great" then some (4/5, 3/4)
  else if w = "good" then some (7/10, 3/5)
  else if w = "happy" then some (4/5, 1)
  else if w = "bad" then some (-7/10, 2/3)
  else if w = "hate" then some (-4/5, 19/20)
  else if w = "terrible" then some (-1, 1)
  else if w = "awful" then some (-1, 1)
  else none

/-- Modelled from the spec: `blob.sentiment`, an averaged lexicon-based
polarity/subjectivity estimator over the recognized sentiment-bearing
words of the corpus; (0, 0) when none occur. -/
def blobSentiment (s : String) : Rat × Rat :=
  let hits := (blobWords s).filterMap (fun w => lexiconEntry (pyLower w))
  if hits.isEmpty then (0, 0)
  else ((hits.map Prod.fst).sum / hits.length, (hits.map Prod.snd).sum / hits.length)

/-- `sentiment.polarity` of the combined corpus (src/main_openai.py, line 143). -/
def polarityOf (posts comments : List Item) : Rat :=
  (blobSentiment (combinedOf posts comments)).1

/-- `sentiment.subjectivity` of the combined corpus. -/
def subjectivityOf (posts comments : List Item) : Rat :=
  (blobSentiment (combinedOf posts comments)).2

/-- `"positive" if sentiment.polarity > 0 else "negative" if sentiment.polarity < 0 else "neutral"`
(src/main_openai.py, line 150). -/
def toneOf (posts comments : List Item) : String :=
  if polarityOf posts comments > 0 then "positive"
  else if polarityOf posts comments < 0 then "negative"
  else "neutral"

/-! ## Sentences (TextBlob `blob.sentences`, modelled from the spec) -/

/-- End-of-sentence punctuation. -/
def isSentEnd (c : Char) : Bool :=
  c = '.' || c = '!' || c = '?'

/-- Modelled from the spec: sentence splitting on end-of-sentence
punctuation heuristics (external dependency TextBlob `blob.sentences`);
segments with no alphanumeric character are not sentences. -/
def splitSentencesAux : List Char → List Char → List (List Char)
  | [], cur => if cur.any Char.isAlphanum then [cur.reverse] else []
  | c :: rest, cur =>
    if isSentEnd c then
      (if cur.any Char.isAlphanum then [cur.reverse] else []) ++ splitSentencesAux rest []
    else splitSentencesAux rest (c :: cur)

/-- Modelled from the spec: `blob.sentences` over a corpus string. -/
def blobSentences (s : String) : List String :=
  (splitSentencesAux s.toList []).map String.mk

/-- `sum(len(s.words) for s in blob.sentences) / len(blob.sentences) if blob.sentences else 0`
(src/main_openai.py, line 161). -/
def avgLenOf (posts comments : List Item) : Rat :=
  let sents := blobSentences (combinedOf posts comments)
  if sents.isEmpty then 0
  else ((sents.map (fun s => ((blobWords s).length : Rat))).sum) / (sents.length : Rat)

/-! ## Fixed-point number formatting (Python `f"{x:.2f}"`, `f"{x:.1f}"`) -/

/-- The decimal digit character for `d % 10`. -/
def digitChar (d : Nat) : Char := Char.ofNat (48 + d % 10)

/-- The `p` low decimal digits of `n`, least significant first. -/
def fracDigitsAux : Nat → Nat → List Char
  | 0, _ => []
  | p + 1, n => digitChar (n % 10) :: fracDigitsAux p (n / 10)

/-- Python fixed-point formatting `f"{x:.pf}"`: sign, integer part, dot,
exactly `p` fraction digits, value rounded to the nearest multiple of
`10^-p`. -/
def fmtFixed (p : Nat) (q : Rat) : String :=
  let scaled : Int := ⌊q * (10 ^ p : Nat) + 1/2⌋
  let sign := if scaled < 0 then "-" else ""
  let a := scaled.natAbs
  sign ++ toString (a / 10 ^ p) ++ "." ++ String.mk (fracDigitsAux p (a % 10 ^ p)).reverse

/-! ## The renderer `build_persona_simple` (src/main_openai.py, lines 130-166) -/

/-- The line appended when `top` is empty (src/main_openai.py, line 153). -/
def insufficientMsg : String :=
  "Not enough content to summarize interests.\n"

/-- The summary line(s): either the topics/tone sentence or the
insufficient-content message (src/main_openai.py, lines 148-153). -/
def summaryLines (posts comments : List Item) : List String :=
  if (topOf posts comments).isEmpty then [insufficientMsg]
  else
    let topics := pyJoin ", " ((topOf posts comments).map Prod.fst)
    ["User frequently discusses " ++ topics ++ ". Overall sentiment is "
      ++ toneOf posts comments ++ ".\n"]

/-- The Key Interests bullet lines, one per `(topic, count)` in `top`
(src/main_openai.py, lines 157-158). -/
def topicBullets (posts comments : List Item) : List String :=
  (topOf posts comments).map
    (fun tc => "- " ++ tc.1 ++ " (mentioned " ++ toString tc.2 ++ " times)")

/-- The `lines` list built by `build_persona_simple`
(src/main_openai.py, lines 144-164), in order of the `append` calls. -/
def personaLines (posts comments : List Item) : List String :=
  ["**Summary:**"]
    ++ summaryLines posts comments
    ++ ["**Key Interests/Topics:**"]
    ++ topicBullets posts comments
    ++ ["\n**Communication Style & Tone:**",
        "- Sentiment polarity: " ++ fmtFixed 2 (polarityOf posts comments)
          ++ ", subjectivity: " ++ fmtFixed 2 (subjectivityOf posts comments),
        "- Average sentence length: " ++ fmtFixed 1 (avgLenOf posts comments)
          ++ " words\n"]

/-- `build_persona_simple` (src/main_openai.py, lines 130-166):
`"\n".join(lines)`. -/
def build_persona_simple (posts comments : List Item) : String :=
  pyJoin "\n" (personaLines posts comments)

/-! ## Fetch (src/main_openai.py lines 43-56, src/main.py lines 44-57) -/

/-- A raw submission as seen from PRAW: `created_utc`, `title`,
`selftext`, `permalink`. -/
structure RawPost where
  created : Int
  title : String
  selftext : String
  permalink : String
  deriving DecidableEq, Repr

/-- A raw comment as seen from PRAW: `created_utc`, `body`, `permalink`. -/
structure RawComment where
  created : Int
  body : String
  permalink : String
  deriving DecidableEq, Repr

/-- `text = post.title + ("\n\n" + post.selftext if post.selftext else "")`
and the appended tuple (src/main_openai.py, lines 49-50). -/
def mkPostItem (p : RawPost) : Item :=
  { created := p.created, kind := "Post",
    text := p.title ++ (if p.selftext ≠ "" then "\n\n" ++ p.selftext else ""),
    permalink := p.permalink }

/-- The appended comment tuple (src/main_openai.py, line 52). -/
def mkCommentItem (c : RawComment) : Item :=
  { created := c.created, kind := "Comment", text := c.body,
    permalink := c.permalink }

/-- `fetch_user_content` (both sources).  The PRAW interaction inside the
`try` block is abstracted as `api`: `none` when any call raises (user
does not exist, network error, failure mid-iteration) — the `except`
branch then returns `(None, None)` — and `some (ps, cs)` for the streams
the two listings yield.  Modelled from the spec for the external part:
PRAW's `.new(limit=n)` yields at most `n` items, modelled as `take`. -/
def fetch_user_content (api : Option (List RawPost × List RawComment))
    (limit_posts limit_comments : Nat) :
    Option (List Item) × Option (List Item) :=
  match api with
  | none => (none, none)
  | some (ps, cs) =>
    (some ((ps.take limit_posts).map mkPostItem),
     some ((cs.take limit_comments).map mkCommentItem))

/-! ## Orchestrators (src/main_openai.py `main`, src/main.py `main`) -/

/-- Python truthiness of a fetched sequence: `not x` is true for `None`
and for the empty list. -/
def pyFalsyList (x : Option (List Item)) : Bool :=
  match x with
  | none => true
  | some l => l.isEmpty

/-- Python truthiness of the persona value: `not persona` is true for
`None` and for the empty string. -/
def pyFalsyStr (x : Option String) : Bool :=
  match x with
  | none => true
  | some s => s = ""

/-- How an orchestrator run leaves the fetch-check phase. -/
inductive FetchCheck where
  /-- `main.py` line 146-147: `if posts is None or comments is None: return`
  (the fetch helper has already printed the fetch error). -/
  | abortFetchError : FetchCheck
  /-- the no-content diagnostic branch, after which the run returns. -/
  | abortNoContent : FetchCheck
  /-- fall through to persona generation. -/
  | proceed : FetchCheck
  deriving DecidableEq, Repr

/-- src/main_openai.py lines 182-185: after
`posts, comments = fetch_user_content(username)`, the single check
`if not posts and not comments: print("[ERROR] No posts or comments found; exiting."); return`. -/
def mainOpenaiFetchCheck (posts comments : Option (List Item)) : FetchCheck :=
  if pyFalsyList posts && pyFalsyList comments then .abortNoContent
  else .proceed

/-- src/main.py lines 144-152: `if posts is None or comments is None: return`,
then `if not posts and not comments: print("[!] No content found ..."); return`. -/
def mainPyFetchCheck (posts comments : Option (List Item)) : FetchCheck :=
  match posts, comments with
  | none, _ => .abortFetchError
  | _, none => .abortFetchError
  | some ps, some cs =>
    if ps.isEmpty && cs.isEmpty then .abortNoContent else .proceed

/-- Only the `proceed` branch reaches the output-writing code; both abort
branches `return` before any file is touched. -/
def fetchCheckWritesFile : FetchCheck → Bool
  | .proceed => true
  | _ => false

/-- `resp.choices[0].message.content.strip()` — the value
`build_persona_llm` / `build_persona` returns on a successful call
(src/main_openai.py line 118, src/main.py line 123). -/
def pyStrip (s : String) : String :=
  String.mk (((s.toList.dropWhile Char.isWhitespace).reverse.dropWhile
      Char.isWhitespace).reverse)

/-- src/main_openai.py lines 187-200: `persona = build_persona_llm(...)`;
`if not persona: persona = build_persona_simple(posts, comments)`; the
resulting string is what `out_file.write_text(persona)` writes.  `llm`
is the LLM call's result: `none` on exception, `some t` (with `t`
already stripped) on success. -/
def mainOpenaiWritten (llm : Option String) (posts comments : List Item) : String :=
  if pyFalsyStr llm then build_persona_simple posts comments
  else llm.getD ""

/-- src/main.py lines 154-163: `persona = build_persona(...)`;
`if not persona: print(...); return` — so `none` here means the run ends
with no file written; otherwise the contained string is written. -/
def mainPyWritten (llm : Option String) : Option String :=
  if pyFalsyStr llm then none else llm

/-- Index of the first occurrence of `w` in a word list (length of the
list when absent). -/
def firstIdx (w : String) : List String → Nat
  | [] => 0
  | x :: xs => if x = w then 0 else firstIdx w xs + 1

/-! ## Lemmas about the stable descending sort -/

/-- "a is ranked no lower than b and ties keep original order `S`". -/
def tieStable (S : String × Nat → String × Nat → Prop)
    (a b : String × Nat) : Prop :=
  b.2 < a.2 ∨ (b.2 = a.2 ∧ S a b)

theorem mem_insertDesc {x y : String × Nat} {l : List (String × Nat)} :
    y ∈ insertDesc x l ↔ y = x ∨ y ∈ l := by
  induction l with
  | nil => simp [insertDesc]
  | cons z zs ih =>
    by_cases h : x.2 < z.2
    · simp only [insertDesc, if_pos h, List.mem_cons, ih]
      tauto
    · simp only [insertDesc, if_neg h, List.mem_cons]

theorem insertDesc_perm (x : String × Nat) (l : List (String × Nat)) :
    (insertDesc x l).Perm (x :: l) := by
  induction l with
  | nil => simp [insertDesc]
  | cons z zs ih =>
    by_cases h : x.2 < z.2
    · simp only [insertDesc, if_pos h]
      exact ((ih.cons z).trans (List.Perm.swap x z zs))
    · simp [insertDesc, h]

theorem sortDesc_perm (l : List (String × Nat)) : (sortDesc l).Perm l := by
  induction l with
  | nil => simp [sortDesc]
  | cons x xs ih =>
    exact (insertDesc_perm x (sortDesc xs)).trans (ih.cons x)

theorem insertDesc_sorted {x : String × Nat} {l : List (String × Nat)}
    (h : l.Pairwise (fun a b => b.2 ≤ a.2)) :
    (insertDesc x l).Pairwise (fun a b => b.2 ≤ a.2) := by
  induction l with
  | nil => simp [insertDesc]
  | cons z zs ih =>
    rcases List.pairwise_cons.mp h with ⟨hz, hzs⟩
    by_cases hc : x.2 < z.2
    · simp only [insertDesc, if_pos hc]
      refine List.pairwise_cons.mpr ⟨?_, ih hzs⟩
      intro y hy
      rcases mem_insertDesc.mp hy with rfl | hy
      · exact le_of_lt hc
      · exact hz y hy
    · simp only [insertDesc, if_neg hc]
      refine List.pairwise_cons.mpr ⟨?_, h⟩
      intro y hy
      rcases List.mem_cons.mp hy with rfl | hy
      · exact le_of_not_lt hc
      · exact le_trans (hz y hy) (le_of_not_lt hc)

theorem sortDesc_sorted (l : List (String × Nat)) :
    (sortDesc l).Pairwise (fun a b => b.2 ≤ a.2) := by
  induction l with
  | nil => simp [sortDesc]
  | cons x xs ih => exact insertDesc_sorted ih

theorem insertDesc_stable {S : String × Nat → String × Nat → Prop}
    {x : String × Nat} {l : List (String × Nat)}
    (hsort : l.Pairwise (fun a b => b.2 ≤ a.2))
    (hQ : l.Pairwise (tieStable S)) (hx : ∀ y ∈ l, S x y) :
    (insertDesc x l).Pairwise (tieStable S) := by
  induction l with
  | nil => simp [insertDesc]
  | cons z zs ih =>
    rcases List.pairwise_cons.mp hsort with ⟨hzle, hsort'⟩
    rcases List.pairwise_cons.mp hQ with ⟨hzQ, hQ'⟩
    by_cases hc : x.2 < z.2
    · simp only [insertDesc, if_pos hc]
      refine List.pairwise_cons.mpr ⟨?_, ?_⟩
      · intro y hy
        rcases mem_insertDesc.mp hy with rfl | hy
        · exact Or.inl hc
        · exact hzQ y hy
      · exact ih hsort' hQ' (fun y hy => hx y (List.mem_cons_of_mem z hy))
    · simp only [insertDesc, if_neg hc]
      refine List.pairwise_cons.mpr ⟨?_, hQ⟩
      intro y hy
      have hyx : y.2 ≤ x.2 := by
        rcases List.mem_cons.mp hy with rfl | hy
        · exact le_of_not_lt hc
        · exact le_trans (hzle y hy) (le_of_not_lt hc)
      rcases lt_or_eq_of_le hyx with hlt | heq
      · exact Or.inl hlt
      · exact Or.inr ⟨heq, hx y hy⟩

theorem sortDesc_stable {S : String × Nat → String × Nat → Prop}
    {l : List (String × Nat)} (h : l.Pairwise S) :
    (sortDesc l).Pairwise (tieStable S) := by
  induction l with
  | nil => simp [sortDesc]
  | cons x xs ih =>
    rcases List.pairwise_cons.mp h with ⟨hx, hxs⟩
    refine insertDesc_stable (sortDesc_sorted xs) (ih hxs) ?_
    intro y hy
    exact hx y ((sortDesc_perm xs).mem_iff.mp hy)

/-! ## Lemmas about `Counter` insertion order -/

theorem firstIdx_cons_self (w : String) (ws : List String) :
    firstIdx w (w :: ws) = 0 := by
  simp [firstIdx]

theorem firstIdx_cons_ne {x w : String} (ws : List String) (h : x ≠ w) :
    firstIdx w (x :: ws) = firstIdx w ws + 1 := by
  simp [firstIdx, fun hc : x = w => h hc]

theorem firstOccs_pairwise (ws : List String) :
    (firstOccs ws).Pairwise (fun a b => firstIdx a ws < firstIdx b ws) := by
  induction ws with
  | nil => simp [firstOccs]
  | cons w ws ih =>
    refine List.pairwise_cons.mpr ⟨?_, ?_⟩
    · intro x hx
      have hxw : x ≠ w := by
        rcases List.mem_filter.mp hx with ⟨_, hd⟩
        exact of_decide_eq_true hd
      rw [firstIdx_cons_self, firstIdx_cons_ne ws (Ne.symm hxw)]
      exact Nat.succ_pos _
    · have hf := List.Pairwise.filter (fun x => x ≠ w) ih
      refine hf.imp_of_mem ?_
      intro a b ha hb hab
      have haw : a ≠ w := of_decide_eq_true (List.mem_filter.mp ha).2
      have hbw : b ≠ w := of_decide_eq_true (List.mem_filter.mp hb).2
      rw [firstIdx_cons_ne ws (Ne.symm haw), firstIdx_cons_ne ws (Ne.symm hbw)]
      exact Nat.succ_lt_succ hab

theorem counterOf_pairwise (ws : List String) :
    (counterOf ws).Pairwise (fun a b => firstIdx a.1 ws < firstIdx b.1 ws) := by
  unfold counterOf
  rw [List.pairwise_map]
  exact firstOccs_pairwise ws

/-! ## Lemmas about tokenization and joining -/

theorem tokenizeAux_append_space (l1 l2 : List Char) (cur : List Char) :
    tokenizeAux (l1 ++ ' ' :: l2) cur = tokenizeAux l1 cur ++ tokenizeAux l2 [] := by
  induction l1 generalizing cur with
  | nil =>
    have hsp : (' ').isAlphanum = false := by decide
    simp [tokenizeAux, hsp]
  | cons c l1 ih =>
    by_cases h : c.isAlphanum
    · simp only [List.cons_append, tokenizeAux, if_pos h]
      exact ih (c :: cur)
    · simp only [List.cons_append, tokenizeAux, if_neg h, List.append_eq]
      rw [ih, List.append_assoc]

theorem blobWords_append_space (a b : String) :
    blobWords (a ++ " " ++ b) = blobWords a ++ blobWords b := by
  show tokenizeAux ((a ++ " " ++ b).data) [] = _
  rw [String.data_append, String.data_append]
  have hsp : (" ").data = [' '] := rfl
  rw [hsp, List.append_assoc]
  exact tokenizeAux_append_space a.data b.data []

theorem blobWords_foldl (xs : List String) (acc : String) :
    blobWords (xs.foldl (fun a t => a ++ " " ++ t) acc)
      = blobWords acc ++ xs.flatMap blobWords := by
  induction xs generalizing acc with
  | nil => simp
  | cons x xs ih =>
    simp only [List.foldl_cons, List.flatMap_cons, ih, blobWords_append_space,
      List.append_assoc]

theorem blobWords_pyJoin (l : List String) :
    blobWords (pyJoin " " l) = l.flatMap blobWords := by
  cases l with
  | nil => rfl
  | cons x xs => simp [pyJoin, blobWords_foldl]

theorem wordsOf_perm {l1 l2 : List String} (h : l1.Perm l2) :
    (wordsOf (pyJoin " " l1)).Perm (wordsOf (pyJoin " " l2)) := by
  unfold wordsOf
  rw [blobWords_pyJoin, blobWords_pyJoin]
  exact ((h.flatMap_right blobWords).filter _).map _

/-! ## Lemmas about the sentiment model -/

theorem lexiconEntry_bounds {w : String} {pr : Rat × Rat}
    (h : lexiconEntry w = some pr) :
    -1 ≤ pr.1 ∧ pr.1 ≤ 1 ∧ 0 ≤ pr.2 ∧ pr.2 ≤ 1 := by
  unfold lexiconEntry at h
  split_ifs at h <;>
    first
      | exact Option.noConfusion h
      | (simp only [Option.some.injEq] at h; subst h; norm_num)

theorem avg_mem_bounds (l : List Rat) (lo hi : Rat) (hne : l ≠ [])
    (h : ∀ x ∈ l, lo ≤ x ∧ x ≤ hi) :
    lo ≤ l.sum / l.length ∧ l.sum / l.length ≤ hi := by
  have hlen : (0 : Rat) < l.length := by
    exact_mod_cast List.length_pos.mpr hne
  constructor
  · rw [le_div_iff₀ hlen]
    have := List.card_nsmul_le_sum l lo (fun x hx => (h x hx).1)
    rwa [nsmul_eq_mul, mul_comm] at this
  · rw [div_le_iff₀ hlen]
    have := List.sum_le_card_nsmul l hi (fun x hx => (h x hx).2)
    rwa [nsmul_eq_mul, mul_comm] at this

theorem blobSentiment_bounds (s : String) :
    -1 ≤ (blobSentiment s).1 ∧ (blobSentiment s).1 ≤ 1 ∧
    0 ≤ (blobSentiment s).2 ∧ (blobSentiment s).2 ≤ 1 := by
  unfold blobSentiment
  by_cases hh :
      ((blobWords s).filterMap (fun w => lexiconEntry (pyLower w))).isEmpty
  · simp [hh]
  · simp only [hh, if_neg, Bool.false_eq_true, not_false_eq_true]
    have hne : (blobWords s).filterMap (fun w => lexiconEntry (pyLower w)) ≠ [] := by
      simpa [List.isEmpty_iff] using hh
    set hits := (blobWords s).filterMap (fun w => lexiconEntry (pyLower w)) with hdef
    have hmem : ∀ pr ∈ hits, -1 ≤ pr.1 ∧ pr.1 ≤ 1 ∧ 0 ≤ pr.2 ∧ pr.2 ≤ 1 := by
      intro pr hpr
      rw [hdef] at hpr
      rcases List.mem_filterMap.mp hpr with ⟨w, _, hw⟩
      exact lexiconEntry_bounds hw
    have h1 := avg_mem_bounds (hits.map Prod.fst) (-1) 1
      (by simpa using hne)
      (by
        intro x hx
        rcases List.mem_map.mp hx with ⟨pr, hpr, rfl⟩
        exact ⟨(hmem pr hpr).1, (hmem pr hpr).2.1⟩)
    have h2 := avg_mem_bounds (hits.map Prod.snd) 0 1
      (by simpa using hne)
      (by
        intro x hx
        rcases List.mem_map.mp hx with ⟨pr, hpr, rfl⟩
        exact ⟨(hmem pr hpr).2.2.1, (hmem pr hpr).2.2.2⟩)
    rw [List.length_map] at h1 h2
    exact ⟨h1.1, h1.2, h2.1, h2.2⟩

/-! ## Lemmas about fixed-point formatting -/

theorem digitChar_isDigit (d : Nat) : (digitChar d).isDigit = true := by
  unfold digitChar
  have h : d % 10 < 10 := Nat.mod_lt _ (by norm_num)
  interval_cases h : d % 10 <;> decide

theorem fracDigitsAux_length (p n : Nat) : (fracDigitsAux p n).length = p := by
  induction p generalizing n with
  | zero => rfl
  | succ p ih => simp [fracDigitsAux, ih]

theorem fracDigitsAux_digits (p n : Nat) :
    ∀ c ∈ fracDigitsAux p n, c.isDigit = true := by
  induction p generalizing n with
  | zero => simp [fracDigitsAux]
  | succ p ih =>
    intro c hc
    rcases List.mem_cons.mp hc with rfl | hc
    · exact digitChar_isDigit _
    · exact ih _ c hc

theorem fmtFixed_shape (p : Nat) (q : Rat) :
    ∃ a d : String, fmtFixed p q = a ++ "." ++ d ∧ d.length = p ∧
      d.toList.all Char.isDigit = true := by
  refine ⟨(if (⌊q * (10 ^ p : Nat) + 1/2⌋ : Int) < 0 then "-" else "")
      ++ toString ((⌊q * (10 ^ p : Nat) + 1/2⌋ : Int).natAbs / 10 ^ p),
    String.mk (fracDigitsAux p ((⌊q * (10 ^ p : Nat) + 1/2⌋ : Int).natAbs % 10 ^ p)).reverse,
    rfl, ?_, ?_⟩
  · show (fracDigitsAux p _).reverse.length = p
    rw [List.length_reverse, fracDigitsAux_length]
  · show (fracDigitsAux p _).reverse.all Char.isDigit = true
    rw [List.all_eq_true]
    intro c hc
    exact fracDigitsAux_digits p _ c (List.mem_reverse.mp hc)

/-! ## Sample inputs used by witnesses and counterexamples -/

/-- A one-word post used as concrete input. -/
def sampleA : Item := { created := 0, kind := "Post", text := "alpha", permalink := "/p/1" }

/-- A one-word comment used as concrete input. -/
def sampleB : Item := { created := 0, kind := "Comment", text := "zeta", permalink := "/c/1" }

/-! ## The claims -/

/-- C1: for every input corpus with at least one non-stopword alphabetic
token, the fallback builder's top-topics list has length at most 5, is
sorted in descending order of token count, and breaks ties between equal
counts by first-encountered order of the tokens in the corpus. -/
theorem C1_top_topics (posts comments : List Item)
    (_h : wordsOf (combinedOf posts comments) ≠ []) :
    (topOf posts comments).length ≤ 5 ∧
    (topOf posts comments).Pairwise (fun a b => b.2 ≤ a.2) ∧
    (topOf posts comments).Pairwise (fun a b => a.2 = b.2 →
      firstIdx a.1 (wordsOf (combinedOf posts comments))
        < firstIdx b.1 (wordsOf (combinedOf posts comments))) := by
  unfold topOf mostCommonN
  refine ⟨List.length_take_le _ _, ?_, ?_⟩
  · exact List.Pairwise.sublist (List.take_sublist _ _) (sortDesc_sorted _)
  · have hstable :=
      sortDesc_stable (counterOf_pairwise (wordsOf (combinedOf posts comments)))
    have htake := List.Pairwise.sublist (List.take_sublist 5 _) hstable
    refine htake.imp ?_
    intro a b hab heq
    rcases hab with hlt | ⟨_, hS⟩
    · omega
    · exact hS

/-- Witness for C1 at a concrete two-item input. -/
theorem C1_top_topics_witness :
    wordsOf (combinedOf [sampleA] [sampleB]) ≠ [] ∧
    (topOf [sampleA] [sampleB]).length ≤ 5 :=
  ⟨by decide, (C1_top_topics [sampleA] [sampleB] (by decide)).1⟩

/-- C2 counterexample: swapping the two combined items changes the output
of `build_persona_simple` (the tied topics change order), so the output
is not invariant under permutations of `posts ++ comments`. -/
theorem C2_order_counterexample :
    ([sampleA] ++ [sampleB]).Perm ([sampleB] ++ [sampleA]) ∧
    build_persona_simple [sampleA] [sampleB]
      ≠ build_persona_simple [sampleB] [sampleA] := by
  constructor
  · decide
  · decide

/-- C2 amended: for every permutation of `posts ++ comments`, each
token's frequency count is unchanged (the rendered string itself may
differ, since frequency ties are broken by first occurrence). -/
theorem C2_counts_perm_invariant (posts comments posts2 comments2 : List Item)
    (h : (posts ++ comments).Perm (posts2 ++ comments2)) (w : String) :
    (wordsOf (combinedOf posts2 comments2)).count w
      = (wordsOf (combinedOf posts comments)).count w := by
  unfold combinedOf
  exact ((wordsOf_perm (h.map Item.text)).count_eq w).symm

/-- Witness for the amended C2 at a concrete swapped input. -/
theorem C2_counts_perm_invariant_witness :
    ([sampleA] ++ [sampleB]).Perm ([sampleB] ++ [sampleA]) ∧
    (wordsOf (combinedOf [sampleB] [sampleA])).count "alpha"
      = (wordsOf (combinedOf [sampleA] [sampleB])).count "alpha" :=
  ⟨by decide,
   C2_counts_perm_invariant [sampleA] [sampleB] [sampleB] [sampleA] (by decide) "alpha"⟩

/-- C3: when the corpus yields no non-stopword alphabetic tokens the
fallback builder still produces its output (it is a total function whose
result is `"\n".join` of the rendered lines), that output contains the
insufficient-content message, and the Key Interests section has zero
topic bullet lines. -/
theorem C3_empty_corpus (posts comments : List Item)
    (h : wordsOf (combinedOf posts comments) = []) :
    topicBullets posts comments = [] ∧
    insufficientMsg ∈ personaLines posts comments ∧
    build_persona_simple posts comments = pyJoin "\n" (personaLines posts comments) := by
  have htop : topOf posts comments = [] := by
    unfold topOf mostCommonN counterOf
    rw [h]
    rfl
  refine ⟨?_, ?_, rfl⟩
  · unfold topicBullets
    rw [htop]
    rfl
  · unfold personaLines summaryLines
    rw [htop]
    simp

/-- Witness for C3 at the empty input. -/
theorem C3_empty_corpus_witness :
    wordsOf (combinedOf ([] : List Item) []) = [] ∧
    topicBullets ([] : List Item) [] = [] :=
  ⟨by decide, (C3_empty_corpus [] [] (by decide)).1⟩

/-- C4: the average sentence length is 0 when the corpus splits into zero
sentences, and otherwise satisfies
`avg * number of sentences = total words across sentences`. -/
theorem C4_avg_sentence_length (posts comments : List Item) :
    (blobSentences (combinedOf posts comments) = [] →
      avgLenOf posts comments = 0) ∧
    (blobSentences (combinedOf posts comments) ≠ [] →
      avgLenOf posts comments * ((blobSentences (combinedOf posts comments)).length : Rat)
        = ((blobSentences (combinedOf posts comments)).map
            (fun s => ((blobWords s).length : Rat))).sum) := by
  constructor
  · intro h
    unfold avgLenOf
    simp [h]
  · intro h
    have hpos : (blobSentences (combinedOf posts comments)).length ≠ 0 := by
      simpa [List.length_eq_zero] using h
    have hne : (blobSentences (combinedOf posts comments)).isEmpty = false := by
      simpa [List.isEmpty_iff] using h
    unfold avgLenOf
    simp only [hne, Bool.false_eq_true, if_neg, not_false_eq_true]
    rw [div_mul_cancel₀]
    exact_mod_cast hpos

/-- Witness for C4 at the empty input (zero sentences). -/
theorem C4_avg_sentence_length_witness :
    blobSentences (combinedOf ([] : List Item) []) = [] ∧
    avgLenOf ([] : List Item) [] = 0 :=
  ⟨by decide, (C4_avg_sentence_length [] []).1 (by decide)⟩

/-- C5: sentiment polarity always lies in [-1, 1] and subjectivity in
[0, 1], and the tone label is exactly one of positive/negative/neutral,
matching the sign of the polarity. -/
theorem C5_sentiment_and_tone (posts comments : List Item) :
    (-1 ≤ polarityOf posts comments ∧ polarityOf posts comments ≤ 1) ∧
    (0 ≤ subjectivityOf posts comments ∧ subjectivityOf posts comments ≤ 1) ∧
    (0 < polarityOf posts comments → toneOf posts comments = "positive") ∧
    (polarityOf posts comments < 0 → toneOf posts comments = "negative") ∧
    (polarityOf posts comments = 0 → toneOf posts comments = "neutral") ∧
    (toneOf posts comments = "positive" ∨ toneOf posts comments = "negative"
      ∨ toneOf posts comments = "neutral") := by
  obtain ⟨h1, h2, h3, h4⟩ := blobSentiment_bounds (combinedOf posts comments)
  refine ⟨⟨h1, h2⟩, ⟨h3, h4⟩, ?_, ?_, ?_, ?_⟩
  · intro hp
    unfold toneOf
    rw [if_pos hp]
  · intro hp
    unfold toneOf
    rw [if_neg (by exact not_lt.mpr hp.le), if_pos hp]
  · intro hp
    unfold toneOf
    rw [if_neg (by rw [hp]; exact lt_irrefl 0), if_neg (by rw [hp]; exact lt_irrefl 0)]
  · unfold toneOf
    split_ifs <;> simp

/-- Witness for C5 at the empty input (zero polarity, neutral tone). -/
theorem C5_sentiment_and_tone_witness :
    polarityOf ([] : List Item) [] = 0 ∧ toneOf ([] : List Item) [] = "neutral" :=
  ⟨by decide, (C5_sentiment_and_tone [] []).2.2.2.2.1 (by decide)⟩

/-- C6 counterexample: the src/main_openai.py orchestrator sends the
error fetch result `(None, None)` and the empty-but-valid result
`([], [])` into the same no-content branch (lines 183-185), so it does
not treat the two cases as distinct. -/
theorem C6_conflation_counterexample :
    mainOpenaiFetchCheck none none = FetchCheck.abortNoContent ∧
    mainOpenaiFetchCheck (some []) (some []) = FetchCheck.abortNoContent :=
  ⟨rfl, rfl⟩

/-- C6 amended: the src/main.py orchestrator treats the error result and
the empty-but-valid result as distinct cases (the former aborts right
after the fetch helper reported the error, the latter reports no
content), while the src/main_openai.py orchestrator conflates both into
its no-content branch; in every abort case no output file is written. -/
theorem C6_error_vs_empty (posts comments : Option (List Item)) :
    mainPyFetchCheck none none = FetchCheck.abortFetchError ∧
    mainPyFetchCheck (some []) (some []) = FetchCheck.abortNoContent ∧
    FetchCheck.abortFetchError ≠ FetchCheck.abortNoContent ∧
    mainOpenaiFetchCheck none none = mainOpenaiFetchCheck (some []) (some []) ∧
    (mainPyFetchCheck posts comments ≠ FetchCheck.proceed →
      fetchCheckWritesFile (mainPyFetchCheck posts comments) = false) ∧
    (mainOpenaiFetchCheck posts comments ≠ FetchCheck.proceed →
      fetchCheckWritesFile (mainOpenaiFetchCheck posts comments) = false) := by
  refine ⟨rfl, rfl, by decide, rfl, ?_, ?_⟩ <;>
    · intro hne
      cases heq : mainPyFetchCheck posts comments <;>
        cases heq2 : mainOpenaiFetchCheck posts comments <;>
        simp_all [fetchCheckWritesFile]

/-- Witness for the amended C6 at the error fetch result. -/
theorem C6_error_vs_empty_witness :
    mainPyFetchCheck none none ≠ FetchCheck.proceed ∧
    fetchCheckWritesFile (mainPyFetchCheck none none) = false :=
  ⟨by decide, (C6_error_vs_empty none none).2.2.2.2.1 (by decide)⟩

/-- C7 counterexample: in src/main.py an LLM failure ends the run with no
file written at all — there is no fallback to the statistical builder,
contradicting the claim that such a run still produces a persona file. -/
theorem C7_no_fallback_counterexample :
    mainPyWritten none = none ∧
    mainPyWritten none ≠ some (build_persona_simple [sampleA] [sampleB]) :=
  ⟨rfl, by simp [mainPyWritten, pyFalsyStr]⟩

/-- C7 amended: in src/main_openai.py, whenever the LLM attempt fails or
returns an empty result, the statistical fallback output is what gets
written, so that run still produces a persona file; in src/main.py there
is no fallback and such a run aborts without writing. -/
theorem C7_fallback (posts comments : List Item) (llm : Option String) :
    (pyFalsyStr llm = true →
      mainOpenaiWritten llm posts comments = build_persona_simple posts comments) ∧
    (pyFalsyStr llm = true → mainPyWritten llm = none) := by
  constructor <;> intro h <;> simp [mainOpenaiWritten, mainPyWritten, h]

/-- Witness for the amended C7 at a failed LLM call. -/
theorem C7_fallback_witness :
    pyFalsyStr none = true ∧
    mainOpenaiWritten none [sampleA] [sampleB] = build_persona_simple [sampleA] [sampleB] :=
  ⟨rfl, (C7_fallback [sampleA] [sampleB] none).1 rfl⟩

/-- C8 counterexample: the completion " " is non-empty, but it strips to
the empty string, which is falsy; src/main_openai.py then writes the
statistical fallback output instead of the trimmed completion, and
src/main.py writes nothing. -/
theorem C8_whitespace_counterexample :
    (" " : String) ≠ "" ∧
    mainOpenaiWritten (some (pyStrip " ")) [sampleA] [sampleB] ≠ pyStrip " " ∧
    mainPyWritten (some (pyStrip " ")) = none := by
  refine ⟨by decide, by decide, by decide⟩

/-- C8 amended: for every run in which the LLM call succeeds with a
completion that is non-empty after trimming, the text written to
`outputs/<username>_persona.txt` is exactly the trimmed completion, in
both orchestrators. -/
theorem C8_verbatim (completion : String) (posts comments : List Item)
    (h : pyStrip completion ≠ "") :
    mainOpenaiWritten (some (pyStrip completion)) posts comments = pyStrip completion ∧
    mainPyWritten (some (pyStrip completion)) = some (pyStrip completion) := by
  constructor <;> simp [mainOpenaiWritten, mainPyWritten, pyFalsyStr, h]

/-- Witness for the amended C8 at a concrete completion. -/
theorem C8_verbatim_witness :
    pyStrip " hello " ≠ "" ∧
    mainOpenaiWritten (some (pyStrip " hello ")) [] [] = pyStrip " hello " :=
  ⟨by decide, (C8_verbatim " hello " [] [] (by decide)).1⟩

/-- C9: for every input, even the empty corpus, the rendered lines
contain the Communication Style block: the header, a sentiment line with
polarity and subjectivity formatted with exactly two decimal digits, and
an average-sentence-length line formatted with exactly one decimal
digit; the insufficient-content case suppresses only the topic summary
and bullets. -/
theorem C9_communication_block (posts comments : List Item) :
    ("\n**Communication Style & Tone:**") ∈ personaLines posts comments ∧
    ("- Sentiment polarity: " ++ fmtFixed 2 (polarityOf posts comments)
        ++ ", subjectivity: " ++ fmtFixed 2 (subjectivityOf posts comments))
      ∈ personaLines posts comments ∧
    ("- Average sentence length: " ++ fmtFixed 1 (avgLenOf posts comments)
        ++ " words\n") ∈ personaLines posts comments ∧
    (∃ a d : String, fmtFixed 2 (polarityOf posts comments) = a ++ "." ++ d ∧
      d.length = 2 ∧ d.toList.all Char.isDigit = true) ∧
    (∃ a d : String, fmtFixed 2 (subjectivityOf posts comments) = a ++ "." ++ d ∧
      d.length = 2 ∧ d.toList.all Char.isDigit = true) ∧
    (∃ a d : String, fmtFixed 1 (avgLenOf posts comments) = a ++ "." ++ d ∧
      d.length = 1 ∧ d.toList.all Char.isDigit = true) := by
  refine ⟨?_, ?_, ?_, fmtFixed_shape 2 _, fmtFixed_shape 2 _, fmtFixed_shape 1 _⟩ <;>
    · unfold personaLines
      simp

/-- C10: `fetch_user_content` returns either `(None, None)` on any error,
or two lists — never one `None` and one list — with the posts capped at
`limit_posts` and the comments capped at `limit_comments`. -/
theorem C10_fetch_shape (api : Option (List RawPost × List RawComment))
    (limit_posts limit_comments : Nat) :
    fetch_user_content api limit_posts limit_comments = (none, none) ∨
    ∃ ps cs : List Item,
      fetch_user_content api limit_posts limit_comments = (some ps, some cs) ∧
      ps.length ≤ limit_posts ∧ cs.length ≤ limit_comments := by
  cases api with
  | none => exact Or.inl rfl
  | some pair =>
    obtain ⟨rawPs, rawCs⟩ := pair
    refine Or.inr ⟨_, _, rfl, ?_, ?_⟩ <;>
      · rw [List.length_map]
        exact List.length_take_le _ _

end BeyondChats
